import Mathlib

/-
Verification of the mortgage-marketplace setup script (src/setup.ts).

The logic original to this repository is the token-symbol generator
makeTokenSymbol and the bounded transaction retrier executeTransaction,
plus the try/catch shells of createSoulboundTokens and createNft.  The
surrounding ledger-SDK calls (account creation, token creation, minting,
transfer, balance queries) are external and out of scope; in the retrier
and the try/catch shells they appear as abstract attempt outcomes or an
abstract body computation.  Strings are modelled as lists of characters
and per-character upper-casing by Char.toUpper, which agrees with the
JavaScript toUpperCase on the ASCII inputs the script uses.
-/

/-- JavaScript split with the single-space separator, as used by
makeTokenSymbol: every space starts a new (possibly empty) word, and the
empty string splits into one empty word. -/
def splitOnSpace : List Char → List (List Char)
  | [] => [[]]
  | c :: cs =>
    let r := splitOnSpace cs
    if c = ' ' then [] :: r
    else
      match r with
      | [] => [[c]]
      | w :: ws => (c :: w) :: ws

/-- Contribution of one word to the JavaScript expression
of first letters joined by the empty string: the first character when the word
has one, and nothing for an empty word, whose undefined first letter
joins as the empty string. -/
def firstLetter : List Char → List Char
  | [] => []
  | c :: _ => [c]

/-- Bounded unfolding of the padding loop of makeTokenSymbol; the fuel
argument bounds how many times the loop body may still run. -/
def padXAux : Nat → List Char → List Char
  | 0, s => s
  | n + 1, s => if s.length < 3 then padXAux n (s ++ ['X']) else s

/-- The padding loop of makeTokenSymbol: while the symbol is shorter
than three characters an X is appended.  Each pass grows the string by
one character, so three passes of fuel reproduce the loop exactly. -/
def padX (s : List Char) : List Char := padXAux 3 s

/-- makeTokenSymbol from src/setup.ts, over the character list of the
token name: split on spaces, join the first letters of the words, then
the forEach loop appends, word by word, every character past the first
that the code's test word[i] === word[i].toUpperCase() accepts, then the
result is padded with X to length three and upper-cased. -/
def makeTokenSymbolL (name : List Char) : List Char :=
  let words := splitOnSpace name
  let symbol := (words.map firstLetter).flatten
  let symbol := words.foldl (fun acc w => acc ++ (w.drop 1).filter (fun c => c = c.toUpper)) symbol
  (padX symbol).map Char.toUpper

/-- makeTokenSymbol on strings. -/
def makeTokenSymbol (name : String) : String := ⟨makeTokenSymbolL name.data⟩

/-- Modelled from the spec's wording of the hump rule: the internal
uppercase letters of a word, that is the characters at positions past
the first that are uppercase. -/
def specHumps (w : List Char) : List Char := (w.drop 1).filter Char.isUpper

/-- Modelled from the spec: the symbol algorithm exactly as the
specification words it, with the hump rule reading uppercase as
Char.isUpper. -/
def specTokenSymbolL (name : List Char) : List Char :=
  let words := splitOnSpace name
  (padX ((words.map firstLetter).flatten ++ (words.map specHumps).flatten)).map Char.toUpper

/-- Spec-side symbol algorithm on strings. -/
def specTokenSymbol (name : String) : String := ⟨specTokenSymbolL name.data⟩

/-- The hump rule as the code actually tests it: characters past the
first that are unchanged by upper-casing, which admits caseless
characters such as digits besides the uppercase letters. -/
def amendedHumps (w : List Char) : List Char := (w.drop 1).filter (fun c => c = c.toUpper)

/-- The spec's symbol algorithm with the hump rule amended to the
unchanged-by-upper-casing test. -/
def amendedTokenSymbolL (name : List Char) : List Char :=
  let words := splitOnSpace name
  (padX ((words.map firstLetter).flatten ++ (words.map amendedHumps).flatten)).map Char.toUpper

/-- Amended symbol algorithm on strings. -/
def amendedTokenSymbol (name : String) : String := ⟨amendedTokenSymbolL name.data⟩

/-- The retry budget of executeTransaction. -/
def MAX_RETRIES : Nat := 20

/-- A JavaScript thrown value as the catch block of executeTransaction
inspects it: whether it is an Error instance, and its toString text. -/
structure Thrown where
  isError : Bool
  text : String

/-- Outcome of one sign-and-submit attempt: the awaited result of
transaction.sign(key) followed by execute(client), or the value those
calls threw. -/
inductive AttemptResult (α : Type) where
  | ok (v : α)
  | thrown (e : Thrown)

/-- Result of a run of executeTransaction, instrumented with the number
of attempts the run performed before returning or throwing. -/
inductive ExecResult (α : Type) where
  | success (v : α) (used : Nat)
  | propagated (e : Thrown) (used : Nat)
  | exhausted (e : Thrown)

/-- Whether the needle occurs as a contiguous substring of the
haystack, as the JavaScript includes method reports it. -/
def containsSub (needle : List Char) : List Char → Bool
  | [] => needle.isEmpty
  | c :: cs => needle.isPrefixOf (c :: cs) || containsSub needle cs

/-- The busy test of the catch block in executeTransaction:
err instanceof Error && err.toString().includes('BUSY'). -/
def isBusy (e : Thrown) : Bool := e.isError && containsSub ("BUSY".data) e.text.data

/-- The error thrown after the loop exits: a new Error reporting that
the transaction failed after MAX_RETRIES attempts. -/
def retryExhausted : Thrown :=
  ⟨true, "Transaction failed after " ++ toString MAX_RETRIES ++ " attempts"⟩

/-- The while loop of executeTransaction.  The first numeric argument is
the remaining budget MAX_RETRIES - retries, the second the current value
of the retries counter; attempts gives the outcome of the attempt made
while the counter holds a given value, which identifies the attempt
uniquely because only the busy branch loops and it increments the
counter exactly once. -/
def execGo {α : Type} (attempts : Nat → AttemptResult α) : Nat → Nat → ExecResult α
  | 0, _ => ExecResult.exhausted retryExhausted
  | n + 1, r =>
    match attempts r with
    | AttemptResult.ok v => ExecResult.success v (r + 1)
    | AttemptResult.thrown e =>
      if isBusy e then execGo attempts n (r + 1) else ExecResult.propagated e (r + 1)

/-- executeTransaction from src/setup.ts: the loop started with the
retries counter at zero and the full budget of MAX_RETRIES. -/
def executeTransaction {α : Type} (attempts : Nat → AttemptResult α) : ExecResult α :=
  execGo attempts MAX_RETRIES 0

/-- The state of the retry loop at the moment the retries counter holds
r: the remaining budget is MAX_RETRIES - r. -/
def execFrom {α : Type} (attempts : Nat → AttemptResult α) (r : Nat) : ExecResult α :=
  execGo attempts (MAX_RETRIES - r) r

/-- Number of sign-and-submit attempts a run performed: the exhausted
branch is reached only after MAX_RETRIES busy attempts consumed the
whole budget. -/
def attemptsUsed {α : Type} : ExecResult α → Nat
  | ExecResult.success _ k => k
  | ExecResult.propagated _ k => k
  | ExecResult.exhausted _ => MAX_RETRIES

/-- createSoulboundTokens from src/setup.ts: its whole body is a single
try block of external SDK calls, abstracted here as a computation that
either resolves or throws; the catch block only logs the error, so the
function resolves normally either way. -/
def createSoulboundTokens {ε : Type} (body : Except ε Unit) : Except ε Unit :=
  match body with
  | Except.ok _ => Except.ok ()
  | Except.error _ => Except.ok ()

/-- createNft from src/setup.ts: the same single try shell, but its
catch block re-throws the caught error. -/
def createNft {ε : Type} (body : Except ε Unit) : Except ε Unit :=
  match body with
  | Except.ok _ => Except.ok ()
  | Except.error e => Except.error e

/-- Length of the padding loop's output for any fuel: the loop adds one
character per pass while it is short of three. -/
theorem padXAux_length (n : Nat) (s : List Char) :
    (padXAux n s).length = if s.length + n ≤ 3 then s.length + n else max s.length 3 := by
  induction n generalizing s with
  | zero =>
    simp only [padXAux]
    split <;> omega
  | succ n ih =>
    simp only [padXAux]
    by_cases h : s.length < 3
    · rw [if_pos h, ih]
      simp only [List.length_append, List.length_cons, List.length_nil]
      split <;> split <;> omega
    · rw [if_neg h]
      split <;> omega

/-- The padding loop brings any symbol to length max of its length and
three. -/
theorem padX_length (s : List Char) : (padX s).length = max s.length 3 := by
  rw [padX, padXAux_length]
  split <;> omega

/-- A left fold that appends a function of each element equals the
initial accumulator followed by the flattened image, which rephrases the
forEach accumulation of makeTokenSymbol. -/
theorem foldl_append_map (g : List Char → List Char) (ws : List (List Char)) (init : List Char) :
    ws.foldl (fun acc w => acc ++ g w) init = init ++ (ws.map g).flatten := by
  induction ws generalizing init with
  | nil => simp
  | cons w ws ih => simp [ih]

/-- When every word is nonempty, the joined first letters have exactly
one character per word. -/
theorem firstLetter_flatten_length (ws : List (List Char)) (h : ∀ w ∈ ws, w ≠ []) :
    ((ws.map firstLetter).flatten).length = ws.length := by
  induction ws with
  | nil => rfl
  | cons w ws ih =>
    have hw : w ≠ [] := h w (List.mem_cons_self _ _)
    have hrest : ((ws.map firstLetter).flatten).length = ws.length :=
      ih fun x hx => h x (List.mem_cons_of_mem _ hx)
    rcases w with _ | ⟨c, w⟩
    · exact absurd rfl hw
    · simp only [List.map_cons, List.flatten_cons, List.length_append, List.length_cons,
        List.length_nil, firstLetter]
      rw [hrest]
      omega

/-- When no character past the first of any word survives the
unchanged-by-upper-casing test, the appended hump characters vanish. -/
theorem humps_flatten_nil (ws : List (List Char))
    (h : ∀ w ∈ ws, ∀ c ∈ w.drop 1, ¬ c = c.toUpper) :
    (ws.map fun w => (w.drop 1).filter fun c => c = c.toUpper).flatten = [] := by
  induction ws with
  | nil => rfl
  | cons w ws ih =>
    simp only [List.map_cons, List.flatten_cons, List.append_eq_nil]
    constructor
    · refine List.filter_eq_nil_iff.mpr ?_
      intro c hc
      simpa using h w (List.mem_cons_self _ _) c hc
    · exact ih fun x hx c hc => h x (List.mem_cons_of_mem _ hx) c hc

/-- Claim C1 counterexample: on the one-word name a1 the code's hump
test accepts the caseless digit 1, because a digit equals its own
uppercase form, so makeTokenSymbol keeps it while the spec's algorithm,
which appends only uppercase letters, pads with X instead. -/
theorem makeTokenSymbol_differs_from_spec :
    makeTokenSymbol ("a1") = ("A1X" : String) ∧ specTokenSymbol ("a1") = ("AXX" : String) ∧
      makeTokenSymbol ("a1") ≠ specTokenSymbol ("a1") := by
  decide

/-- Claim C1 (amended): makeTokenSymbol computes exactly the spec's
algorithm - split on spaces, concatenate the first letter of each word,
append each word's characters past the first, pad with X to length at
least three, upper-case the whole result - once the appended internal
characters are those unchanged by upper-casing (uppercase letters and
caseless characters such as digits), rather than uppercase letters
only. -/
theorem makeTokenSymbol_eq_amended_spec (name : String) :
    makeTokenSymbol name = amendedTokenSymbol name := by
  simp only [makeTokenSymbol, amendedTokenSymbol, makeTokenSymbolL, amendedTokenSymbolL,
    amendedHumps, foldl_append_map]
  rfl

/-- Claim C2 counterexample: a1 b1 c1 is three space-separated nonempty
words with no internal uppercase letter, yet the symbol has length six,
not max of three and three, because the code also appends the internal
digits. -/
theorem symbol_length_claim_counterexample :
    (splitOnSpace (("a1 b1 c1" : String).data)).length = 3 ∧
      (∀ w ∈ splitOnSpace (("a1 b1 c1" : String).data),
        w ≠ [] ∧ ∀ c ∈ w.drop 1, ¬ c.isUpper = true) ∧
      (makeTokenSymbol ("a1 b1 c1")).length ≠ max 3 3 := by
  decide

/-- Claim C2 (amended): for a name splitting into N nonempty words in
which every character past the first of each word is changed by
upper-casing - so no internal character passes the code's hump test -
the generated symbol has length exactly max of N and three. -/
theorem makeTokenSymbol_length_max (name : String)
    (h : ∀ w ∈ splitOnSpace name.data, w ≠ [] ∧ ∀ c ∈ w.drop 1, ¬ c = c.toUpper) :
    (makeTokenSymbol name).length = max (splitOnSpace name.data).length 3 := by
  show (makeTokenSymbolL name.data).length = _
  simp only [makeTokenSymbolL, foldl_append_map]
  rw [humps_flatten_nil _ fun w hw => (h w hw).2, List.append_nil, List.length_map, padX_length,
    firstLetter_flatten_length _ fun w hw => (h w hw).1]

/-- Witness for the amended length theorem at the name Safe Rate, two
words with lowercase interiors, whose symbol SRX has length three. -/
theorem makeTokenSymbol_length_max_witness :
    (∀ w ∈ splitOnSpace (("Safe Rate" : String).data),
        w ≠ [] ∧ ∀ c ∈ w.drop 1, ¬ c = c.toUpper) ∧
      (makeTokenSymbol ("Safe Rate")).length =
        max (splitOnSpace (("Safe Rate" : String).data)).length 3 :=
  ⟨by decide, makeTokenSymbol_length_max ("Safe Rate") (by decide)⟩

/-- Bounds on the attempts a run of the loop performs, at every state
where the counter and the remaining budget add up to the full budget. -/
theorem execGo_used_bounds {α : Type} (attempts : Nat → AttemptResult α) (n r : Nat)
    (hrn : r + n = MAX_RETRIES) :
    1 ≤ attemptsUsed (execGo attempts n r) ∧ attemptsUsed (execGo attempts n r) ≤ MAX_RETRIES := by
  induction n generalizing r with
  | zero =>
    simp only [execGo, attemptsUsed]
    exact ⟨by decide, le_refl _⟩
  | succ n ih =>
    cases hA : attempts r with
    | ok v =>
      simp only [execGo, hA, attemptsUsed]
      omega
    | thrown e =>
      by_cases hb : isBusy e = true
      · simp only [execGo, hA, hb, if_true]
        exact ih (r + 1) (by omega)
      · simp [execGo, hA, hb, attemptsUsed]
        omega

/-- Claim C3: whatever the sequence of attempt outcomes, a run of
executeTransaction terminates having performed at least one and at most
twenty sign-and-submit attempts, the budget MAX_RETRIES being twenty;
the exhausted outcome is reached exactly when twenty busy attempts
consumed the budget. -/
theorem executeTransaction_attempt_bounds {α : Type} (attempts : Nat → AttemptResult α) :
    1 ≤ attemptsUsed (executeTransaction attempts) ∧
      attemptsUsed (executeTransaction attempts) ≤ 20 :=
  execGo_used_bounds attempts MAX_RETRIES 0 (by omega)

/-- Claim C4: at any reachable loop state, when the attempt throws, the
loop retries with the counter incremented exactly when the busy test
accepts the thrown value, and otherwise propagates the thrown value at
once, performing no further attempt. -/
theorem executeTransaction_retry_policy {α : Type} (attempts : Nat → AttemptResult α)
    (r : Nat) (e : Thrown) (hr : r < MAX_RETRIES)
    (he : attempts r = AttemptResult.thrown e) :
    execFrom attempts r =
      if isBusy e then execFrom attempts (r + 1) else ExecResult.propagated e (r + 1) := by
  unfold execFrom
  have hms : MAX_RETRIES - r = (MAX_RETRIES - (r + 1)) + 1 := by omega
  rw [hms]
  simp only [execGo, he]

/-- Witness for the retry-policy theorem: on an Error whose text is
BUSY, the first attempt leads the loop to the state with the counter at
one. -/
theorem executeTransaction_retry_policy_witness :
    (0 : Nat) < MAX_RETRIES ∧
      execFrom (fun _ => AttemptResult.thrown ⟨true, "BUSY"⟩ : Nat → AttemptResult Nat) 0 =
        if isBusy ⟨true, "BUSY"⟩ then
          execFrom (fun _ => AttemptResult.thrown ⟨true, "BUSY"⟩ : Nat → AttemptResult Nat) 1
        else ExecResult.propagated ⟨true, "BUSY"⟩ 1 :=
  ⟨by decide,
    executeTransaction_retry_policy (fun _ => AttemptResult.thrown ⟨true, "BUSY"⟩) 0
      ⟨true, "BUSY"⟩ (by decide) rfl⟩

/-- When every attempt in the budget throws a busy error, the loop runs
its budget down and ends with the retry-exhausted error. -/
theorem execGo_all_busy {α : Type} (attempts : Nat → AttemptResult α)
    (h : ∀ r, r < MAX_RETRIES → ∃ e, attempts r = AttemptResult.thrown e ∧ isBusy e = true) :
    ∀ n r, r + n = MAX_RETRIES → execGo attempts n r = ExecResult.exhausted retryExhausted := by
  intro n
  induction n with
  | zero =>
    intro r hr
    rfl
  | succ n ih =>
    intro r hr
    obtain ⟨e, he, hb⟩ := h r (by omega)
    simp only [execGo, he]
    rw [if_pos hb]
    exact ih (r + 1) (by omega)

/-- Claim C5: if all attempts fail busy, executeTransaction ends with
the distinct retry-exhausted error - an Error whose text states the
transaction failed after twenty attempts - and neither returns a result
nor propagates the busy error itself. -/
theorem executeTransaction_exhausts_on_all_busy {α : Type} (attempts : Nat → AttemptResult α)
    (h : ∀ r, r < MAX_RETRIES → ∃ e, attempts r = AttemptResult.thrown e ∧ isBusy e = true) :
    executeTransaction attempts = ExecResult.exhausted retryExhausted ∧
      retryExhausted.text = ("Transaction failed after 20 attempts" : String) ∧
      (∀ v k, executeTransaction attempts ≠ ExecResult.success v k) ∧
      ∀ e k, executeTransaction attempts ≠ ExecResult.propagated e k := by
  have hmain : executeTransaction attempts = ExecResult.exhausted retryExhausted :=
    execGo_all_busy attempts h MAX_RETRIES 0 (by omega)
  refine ⟨hmain, by decide, ?_, ?_⟩
  · intro v k hc
    rw [hmain] at hc
    exact ExecResult.noConfusion hc
  · intro e k hc
    rw [hmain] at hc
    exact ExecResult.noConfusion hc

/-- Witness for the exhaustion theorem: a run whose every attempt
throws an Error with text BUSY ends with the retry-exhausted error. -/
theorem executeTransaction_exhausts_witness :
    (∀ r, r < MAX_RETRIES →
        ∃ e, (fun _ => AttemptResult.thrown ⟨true, "BUSY"⟩ : Nat → AttemptResult Nat) r =
          AttemptResult.thrown e ∧ isBusy e = true) ∧
      executeTransaction (fun _ => AttemptResult.thrown ⟨true, "BUSY"⟩ : Nat → AttemptResult Nat) =
        ExecResult.exhausted retryExhausted :=
  ⟨fun _ _ => ⟨⟨true, "BUSY"⟩, rfl, by decide⟩,
    (executeTransaction_exhausts_on_all_busy (fun _ => AttemptResult.thrown ⟨true, "BUSY"⟩)
      fun _ _ => ⟨⟨true, "BUSY"⟩, rfl, by decide⟩).1⟩

/-- Claim C6: makeTokenSymbol is deterministic and pure: the embedding
is a total function of the name alone, reading and writing no ambient
state, so two runs on equal inputs return equal symbols. -/
theorem makeTokenSymbol_deterministic (s t : String) (h : s = t) :
    makeTokenSymbol s = makeTokenSymbol t := by
  rw [h]

/-- Witness for determinism at a token name the script uses. -/
theorem makeTokenSymbol_deterministic_witness :
    ("Safe Rate" : String) = ("Safe Rate" : String) ∧
      makeTokenSymbol ("Safe Rate") = makeTokenSymbol ("Safe Rate") :=
  ⟨rfl, makeTokenSymbol_deterministic ("Safe Rate") ("Safe Rate") rfl⟩

/-- Claim C7: makeTokenSymbol is total and its result always has length
at least three: for every input, the empty string and names with
consecutive spaces included, the padding loop brings the symbol to
length three or more and upper-casing preserves length. -/
theorem makeTokenSymbol_length_ge_three (s : String) : 3 ≤ (makeTokenSymbol s).length := by
  show 3 ≤ (makeTokenSymbolL s.data).length
  simp only [makeTokenSymbolL, List.length_map, padX_length]
  omega

/-- Claim C8: the busy check of executeTransaction requires an Error
instance: a thrown value that is not an Error is propagated at once on
the attempt that threw it, with no retry, whatever its text - a text
containing BUSY included. -/
theorem executeTransaction_nonError_propagates {α : Type} (attempts : Nat → AttemptResult α)
    (r : Nat) (e : Thrown) (hr : r < MAX_RETRIES)
    (he : attempts r = AttemptResult.thrown e) (hne : e.isError = false) :
    execFrom attempts r = ExecResult.propagated e (r + 1) := by
  have hb : isBusy e = false := by simp [isBusy, hne]
  unfold execFrom
  have hms : MAX_RETRIES - r = (MAX_RETRIES - (r + 1)) + 1 := by omega
  rw [hms]
  simp [execGo, he, hb]

/-- Witness for the non-Error propagation theorem: a thrown value that
is not an Error and whose text is exactly BUSY is propagated on the
first attempt. -/
theorem executeTransaction_nonError_witness :
    (0 : Nat) < MAX_RETRIES ∧
      containsSub (("BUSY" : String).data) (("BUSY" : String).data) = true ∧
      execFrom (fun _ => AttemptResult.thrown ⟨false, "BUSY"⟩ : Nat → AttemptResult Nat) 0 =
        ExecResult.propagated ⟨false, "BUSY"⟩ 1 :=
  ⟨by decide, by decide,
    executeTransaction_nonError_propagates (fun _ => AttemptResult.thrown ⟨false, "BUSY"⟩) 0
      ⟨false, "BUSY"⟩ (by decide) rfl rfl⟩

/-- Claim C9: createSoulboundTokens never propagates an error - its
catch block swallows whatever its body raises and the call resolves
normally - while createNft re-throws any error its body raises. -/
theorem createSoulboundTokens_swallows_createNft_rethrows {ε : Type} (body : Except ε Unit) :
    createSoulboundTokens body = Except.ok () ∧
      ∀ e, body = Except.error e → createNft body = Except.error e := by
  refine ⟨?_, ?_⟩
  · cases body <;> rfl
  · intro e he
    rw [he]
    rfl

/-- Witness for the error-handling contrast: on a failing body the
soulbound variant still resolves while createNft re-throws. -/
theorem createSoulboundTokens_swallows_witness :
    createSoulboundTokens (Except.error 7 : Except Nat Unit) = Except.ok () ∧
      createNft (Except.error 7 : Except Nat Unit) = Except.error 7 :=
  ⟨(createSoulboundTokens_swallows_createNft_rethrows (Except.error 7 : Except Nat Unit)).1,
    (createSoulboundTokens_swallows_createNft_rethrows (Except.error 7 : Except Nat Unit)).2 7 rfl⟩
